import Mathlib

/-!
Shallow embedding of the Star Run endless-runner simulation core
(src/components/StarRunGame.tsx and the entity model in src/unnamed/part_003).
JavaScript numbers are modelled as rationals (all constants involved are
exact in ℚ); scores are natural numbers (the game only ever adds integer
score gains to an initial score of 0).
-/

namespace StarRun

/-- Obstacle kind (types file: `asteroid | debris | enemy | meteor | blackhole | laser`). -/
inductive ObstacleType where
  | asteroid | debris | enemy | meteor | blackhole | laser
deriving DecidableEq

/-- Power-up kind (types file: `shield | boost | bonus | multishot | timefreeze | magnet | invisibility`). -/
inductive PowerUpType where
  | shield | boost | bonus | multishot | timefreeze | magnet | invisibility
deriving DecidableEq

/-- Power-up rarity (types file: `common | rare | epic | legendary`). -/
inductive Rarity where
  | common | rare | epic | legendary
deriving DecidableEq

/-- Obstacle spawn side (types file union). -/
inductive SpawnSide where
  | left | right | top | center | random | bottom
deriving DecidableEq

/-- Obstacle AI kind (types file union; only `passive` is ever produced). -/
inductive AiType where
  | passive | aggressive | patrol | swarm | kamikaze
deriving DecidableEq

/-- Obstacle AI state (types file union; only `idle` is ever produced). -/
inductive AiState where
  | idle | hunting | patrolling | attacking | fleeing
deriving DecidableEq

/-- The player craft (types file `Spaceship`). -/
structure Spaceship where
  x : ℚ
  y : ℚ
  width : ℚ
  height : ℚ
  velocity : ℚ
  boost : Bool
  boostTime : ℚ
  shield : Bool
  shieldTime : ℚ
  health : ℚ
  maxHealth : ℚ
  energy : ℚ
  maxEnergy : ℚ
  isInvisible : Bool
  invisibilityTime : ℚ
  hasMultishot : Bool
  multishotTime : ℚ
  hasMagnet : Bool
  magnetTime : ℚ
  magnetRange : ℚ
  isTimeFrozen : Bool
  timeFreezeTime : ℚ
  screenShakeX : ℚ
  screenShakeY : ℚ
  screenShakeIntensity : ℚ
deriving DecidableEq

/-- A hazard entity (types file `Obstacle`). -/
structure Obstacle where
  x : ℚ
  y : ℚ
  width : ℚ
  height : ℚ
  type : ObstacleType
  speed : ℚ
  id : String
  rotation : ℚ
  rotationSpeed : ℚ
  health : ℚ
  damage : ℚ
  isTracking : Bool
  trackingSpeed : ℚ
  isBouncing : Bool
  bounceCount : ℚ
  maxBounces : ℚ
  isExplosive : Bool
  explosionRadius : ℚ
  isInvulnerable : Bool
  invulnerabilityTime : ℚ
  velocityX : ℚ
  velocityY : ℚ
  spawnSide : SpawnSide
  diagonalAngle : ℚ
  gravity : ℚ
  bounceEnergy : ℚ
  aiType : AiType
  aiState : AiState
  aiTimer : ℚ
  aiCooldown : ℚ
  patrolPoints : List (ℚ × ℚ)
  currentPatrolIndex : ℚ
  swarmCenter : ℚ × ℚ
  avoidanceRadius : ℚ
  maxSpeed : ℚ
  acceleration : ℚ
  friction : ℚ
deriving DecidableEq

/-- A collectible entity (types file `PowerUp`). -/
structure PowerUp where
  x : ℚ
  y : ℚ
  width : ℚ
  height : ℚ
  type : PowerUpType
  points : ℚ
  id : String
  duration : ℚ
  rarity : Rarity
  effectStrength : ℚ
  isPulsing : Bool
  pulseSpeed : ℚ
  isRotating : Bool
  rotationSpeed : ℚ
  isTracking : Bool
  trackingRange : ℚ
deriving DecidableEq

/-- Session-wide game state (types file `GameState`); the score and high score
are naturals because the game only ever adds nonnegative integer gains. -/
structure GameState where
  width : ℚ
  height : ℚ
  isGameOver : Bool
  score : ℕ
  highScore : ℕ
  newHighScore : Bool
  gameSpeed : ℚ
  paused : Bool
  gameLoopTimeout : ℚ
  timeoutId : ℚ
  difficultyLevel : ℚ
  obstacleSpawnRate : ℚ
  powerUpSpawnRate : ℚ
  obstacleSpeedMultiplier : ℚ
  obstacleSizeMultiplier : ℚ
  obstacleCountMultiplier : ℚ
  powerUpRarity : ℚ
  screenShakeIntensity : ℚ
  gravityWellActive : Bool
  gravityWellStrength : ℚ
  meteorShowerActive : Bool
  meteorShowerIntensity : ℚ
deriving DecidableEq

/-- Initial `gameStateRef` contents (StarRunGame.tsx lines 45-68); the stored
high score read from persistent storage is a parameter. -/
def initialGameState (storedHighScore : ℕ) : GameState where
  width := 800
  height := 600
  isGameOver := false
  score := 0
  highScore := storedHighScore
  newHighScore := false
  gameSpeed := 2
  paused := false
  gameLoopTimeout := 16
  timeoutId := 0
  difficultyLevel := 1
  obstacleSpawnRate := 1800
  powerUpSpawnRate := 5000
  obstacleSpeedMultiplier := 1
  obstacleSizeMultiplier := 1
  obstacleCountMultiplier := 1
  powerUpRarity := 1
  screenShakeIntensity := 0
  gravityWellActive := false
  gravityWellStrength := 0
  meteorShowerActive := false
  meteorShowerIntensity := 0

/-- Initial `spaceshipRef` contents (StarRunGame.tsx lines 70-96). -/
def initialSpaceship : Spaceship where
  x := 400
  y := 500
  width := 40
  height := 30
  velocity := 0
  boost := false
  boostTime := 0
  shield := false
  shieldTime := 0
  health := 100
  maxHealth := 100
  energy := 100
  maxEnergy := 100
  isInvisible := false
  invisibilityTime := 0
  hasMultishot := false
  multishotTime := 0
  hasMagnet := false
  magnetTime := 0
  magnetRange := 50
  isTimeFrozen := false
  timeFreezeTime := 0
  screenShakeX := 0
  screenShakeY := 0
  screenShakeIntensity := 0

/-! ## Difficulty controller (`updateDifficulty`, StarRunGame.tsx lines 893-935) -/

/-- JavaScript `Math.round`: round half toward positive infinity. -/
def jsRound (q : ℚ) : ℤ := ⌊q + 1 / 2⌋

/-- The `while (score >= pointsForNextLevel)` loop of `updateDifficulty`,
written with explicit fuel (the loop adds at least 200 per iteration, so
`score + 1` units of fuel always suffice).  From state
`(currentLevel, pointsForNextLevel)` an iteration moves to
`(currentLevel + 1, pointsForNextLevel + 100 * (currentLevel + 1))`,
exactly as the source increments `currentLevel` and then adds
`100 * currentLevel` to `pointsForNextLevel`. -/
def findLevelAux (score : ℕ) : ℕ → ℕ → ℕ → ℕ
  | 0, currentLevel, _ => currentLevel
  | fuel + 1, currentLevel, pointsForNextLevel =>
    if pointsForNextLevel ≤ score then
      findLevelAux score fuel (currentLevel + 1) (pointsForNextLevel + 100 * (currentLevel + 1))
    else currentLevel

/-- The integer level computed by the loop in `updateDifficulty`,
starting from `currentLevel = 1`, `pointsForNextLevel = 100`. -/
def findLevel (score : ℕ) : ℕ := findLevelAux score (score + 1) 1 100

/-- `100 * (currentLevel - 1) * currentLevel / 2`: cumulative points needed
to reach a given integer level (exact: the numerator is always even). -/
def pointsForLevel (l : ℕ) : ℕ := 100 * (l - 1) * l / 2

/-- `smoothDifficulty` of `updateDifficulty`: integer level plus fractional
progress toward the next level. -/
def smoothDifficulty (score : ℕ) : ℚ :=
  let currentLevel := findLevel score
  let pointsForCurrentLevel : ℚ := if currentLevel = 1 then 0 else (pointsForLevel currentLevel : ℚ)
  let pointsInCurrentLevel : ℚ := (score : ℚ) - pointsForCurrentLevel
  let pointsNeededForNextLevel : ℚ := 100 * (currentLevel : ℚ)
  (currentLevel : ℚ) + pointsInCurrentLevel / pointsNeededForNextLevel

/-- `roundedDifficulty = Math.round(smoothDifficulty * 100) / 100`. -/
def roundedDifficulty (score : ℕ) : ℚ := (jsRound (smoothDifficulty score * 100) : ℚ) / 100

/-- `newGameSpeed = Math.min(2 + (level * 1.2), 30)`. -/
def newGameSpeed (level : ℚ) : ℚ := min (2 + level * 1.2) 30

/-- `newObstacleSpawnRate = Math.max(1400 - (level * 60), 300)`. -/
def newObstacleSpawnRate (level : ℚ) : ℚ := max (1400 - level * 60) 300

/-- `newPowerUpSpawnRate = Math.max(5000 + (level * 200), 3000)`. -/
def newPowerUpSpawnRate (level : ℚ) : ℚ := max (5000 + level * 200) 3000

/-- `updateDifficulty` (StarRunGame.tsx lines 893-935): recompute the rounded
continuous difficulty from the score; bail out if it moved by less than 0.1;
otherwise store it capped at 20 and refresh each derived tunable behind its
own hysteresis band. -/
def updateDifficulty (gs : GameState) : GameState :=
  let roundedDiff := roundedDifficulty gs.score
  if |gs.difficultyLevel - roundedDiff| < 1 / 10 then gs
  else
    let gs1 := { gs with difficultyLevel := min roundedDiff 20 }
    let level := gs1.difficultyLevel
    let gs2 :=
      if |gs1.gameSpeed - newGameSpeed level| > 1 / 10 then
        { gs1 with gameSpeed := (jsRound (newGameSpeed level * 100) : ℚ) / 100 }
      else gs1
    let gs3 :=
      if |gs2.obstacleSpawnRate - newObstacleSpawnRate level| > 50 then
        { gs2 with obstacleSpawnRate := newObstacleSpawnRate level }
      else gs2
    let gs4 :=
      if |gs3.powerUpSpawnRate - newPowerUpSpawnRate level| > 100 then
        { gs3 with powerUpSpawnRate := newPowerUpSpawnRate level }
      else gs3
    gs4

/-! ## Craft movement and status-effect timers (`updateGame`, lines 690-762) -/

/-- `const moveSpeed = 8` (line 691). -/
def moveSpeed : ℚ := 8

/-- Horizontal input resolution (lines 692-700): left/A writes `-moveSpeed`,
right/D then overwrites with `+moveSpeed`. -/
def computeMoveX (keys : List String) : ℚ :=
  let moveX : ℚ := 0
  let moveX := if keys.contains "ArrowLeft" || keys.contains "KeyA" then -moveSpeed else moveX
  let moveX := if keys.contains "ArrowRight" || keys.contains "KeyD" then moveSpeed else moveX
  moveX

/-- Vertical input resolution (lines 701-706). -/
def computeMoveY (keys : List String) : ℚ :=
  let moveY : ℚ := 0
  let moveY := if keys.contains "ArrowUp" || keys.contains "KeyW" then -moveSpeed else moveY
  let moveY := if keys.contains "ArrowDown" || keys.contains "KeyS" then moveSpeed else moveY
  moveY

/-- Craft position update (lines 708-709): add the input displacement and the
screen-shake offset, then clamp to the playfield bounds. -/
def updateShipMovement (gs : GameState) (keys : List String) (ship : Spaceship) : Spaceship :=
  { ship with
    x := max 0 (min (gs.width - ship.width) (ship.x + computeMoveX keys + ship.screenShakeX))
    y := max 0 (min (gs.height - ship.height) (ship.y + computeMoveY keys + ship.screenShakeY)) }

/-- Boost handling (lines 724-732): while Space is held and boost time
remains, the `velocity` field is set to twice `moveSpeed` and the boost timer
drains; otherwise `velocity` is reset to `moveSpeed`.  Note that the craft
position update above never reads `velocity`. -/
def updateBoost (keys : List String) (deltaTime : ℚ) (ship : Spaceship) : Spaceship :=
  if keys.contains "Space" ∧ 0 < ship.boostTime then
    { ship with
      velocity := moveSpeed * 2
      boost := true
      boostTime := max 0 (ship.boostTime - deltaTime) }
  else { ship with velocity := moveSpeed, boost := false }

/-- Shield timer update (lines 734-738): decrement by elapsed time, clamp at
0, and set the flag to `remaining > 0`. -/
def updateShieldTimer (deltaTime : ℚ) (ship : Spaceship) : Spaceship :=
  if 0 < ship.shieldTime then
    let t := max 0 (ship.shieldTime - deltaTime)
    { ship with shieldTime := t, shield := decide (0 < t) }
  else ship

/-! ## Obstacle motion (`updateGame`, lines 764-777) -/

/-- Per-tick obstacle advance (lines 768-777): frozen obstacles add
`velocity * 0.3` to each axis (and damp rotation by the same factor);
non-frozen obstacles add `velocity * 0.7` and rotate at full rate. -/
def moveObstacle (isTimeFrozen : Bool) (ob : Obstacle) : Obstacle :=
  if isTimeFrozen then
    { ob with
      x := ob.x + ob.velocityX * 0.3
      y := ob.y + ob.velocityY * 0.3
      rotation := ob.rotation + ob.rotationSpeed * 0.3 }
  else
    { ob with
      x := ob.x + ob.velocityX * 0.7
      y := ob.y + ob.velocityY * 0.7
      rotation := ob.rotation + ob.rotationSpeed }

/-! ## Collision resolution (`checkCollisions`, lines 1272-1321, and
`collectPowerUp`, lines 1323-1382) -/

/-- The axis-aligned bounding-box overlap test of `checkCollisions`. -/
def collidesObstacle (ship : Spaceship) (ob : Obstacle) : Prop :=
  ship.x < ob.x + ob.width ∧ ship.x + ship.width > ob.x ∧
  ship.y < ob.y + ob.height ∧ ship.y + ship.height > ob.y

instance (ship : Spaceship) (ob : Obstacle) : Decidable (collidesObstacle ship ob) :=
  inferInstanceAs (Decidable (ship.x < ob.x + ob.width ∧ ship.x + ship.width > ob.x ∧
    ship.y < ob.y + ob.height ∧ ship.y + ship.height > ob.y))

/-- Power-up overlap test (lines 1305-1310). -/
def collidesPowerUp (ship : Spaceship) (p : PowerUp) : Prop :=
  ship.x < p.x + p.width ∧ ship.x + ship.width > p.x ∧
  ship.y < p.y + p.height ∧ ship.y + ship.height > p.y

instance (ship : Spaceship) (p : PowerUp) : Decidable (collidesPowerUp ship p) :=
  inferInstanceAs (Decidable (ship.x < p.x + p.width ∧ ship.x + ship.width > p.x ∧
    ship.y < p.y + p.height ∧ ship.y + ship.height > p.y))

/-- `obstacle.damage || 1` (line 1290): a falsy damage (0) falls back to 1. -/
def obstacleDamage (ob : Obstacle) : ℚ := if ob.damage = 0 then 1 else ob.damage

/-- The craft-obstacle loop of `checkCollisions` (lines 1275-1300).  The
returned Boolean reports whether `gameOver()` ran, which in the source
`return`s out of the whole function.  Obstacles are never removed here; on an
unblocked overlap the screen shake is raised to at least 5 and the damage is
subtracted from health. -/
def resolveObstacles (ship : Spaceship) : List Obstacle → Spaceship × Bool
  | [] => (ship, false)
  | ob :: rest =>
    if ship.isInvisible then resolveObstacles ship rest
    else if ship.shield then resolveObstacles ship rest
    else if collidesObstacle ship ob then
      let ship1 := { ship with screenShakeIntensity := max ship.screenShakeIntensity 5 }
      if 0 < ship1.health then
        let ship2 := { ship1 with health := ship1.health - obstacleDamage ob }
        if ship2.health ≤ 0 then (ship2, true)
        else resolveObstacles ship2 rest
      else (ship1, true)
    else resolveObstacles ship rest

/-- `collectPowerUp` (lines 1323-1382): add a rarity- and level-scaled score
gain, update the high score, recompute the (always false) new-high-score
flag, and apply the power-up effect to the craft. -/
def collectPowerUp (gs : GameState) (ship : Spaceship) (p : PowerUp) : GameState × Spaceship :=
  let levelMultiplier : ℕ := (max 1 ⌊gs.difficultyLevel⌋).toNat
  let baseScoreGain := 10 * levelMultiplier
  let scoreGain :=
    match p.rarity with
    | .common => baseScoreGain
    | .rare => baseScoreGain * 2
    | .epic => baseScoreGain * 3
    | .legendary => baseScoreGain * 5
  let scoreGain := if p.type = .bonus then scoreGain + baseScoreGain else scoreGain
  let newScore := gs.score + scoreGain
  let newHigh := if newScore > gs.highScore then newScore else gs.highScore
  let gs1 := { gs with
    score := newScore
    highScore := newHigh
    newHighScore := decide (newScore > newHigh) }
  let ship1 :=
    if p.type = .shield then { ship with shield := true, shieldTime := 5000 }
    else if p.type = .boost then { ship with boostTime := ship.boostTime + 5000 }
    else if p.type = .invisibility then { ship with isInvisible := true, invisibilityTime := 4000 }
    else if p.type = .multishot then { ship with hasMultishot := true, multishotTime := 6000 }
    else if p.type = .magnet then { ship with hasMagnet := true, magnetTime := 8000, magnetRange := 80 }
    else if p.type = .timefreeze then { ship with isTimeFrozen := true, timeFreezeTime := 5000 }
    else ship
  (gs1, ship1)

/-- The power-up loop of `checkCollisions` (lines 1302-1320): indices are
walked from the end of the array toward the front, overlapping power-ups are
collected and spliced out.  Processing the tail first mirrors the descending
index order. -/
def resolvePowerUps (gs : GameState) (ship : Spaceship) :
    List PowerUp → GameState × Spaceship × List PowerUp
  | [] => (gs, ship, [])
  | p :: rest =>
    let r := resolvePowerUps gs ship rest
    if collidesPowerUp r.2.1 p then
      let c := collectPowerUp r.1 r.2.1 p
      (c.1, c.2, r.2.2)
    else (r.1, r.2.1, p :: r.2.2)

/-- `checkCollisions` (lines 1272-1321): first the obstacle loop (a game over
returns immediately, skipping power-up collection), then the power-up loop.
The obstacle collection is passed through untouched — the source never
removes an obstacle here. -/
def checkCollisions (gs : GameState) (ship : Spaceship) (obstacles : List Obstacle)
    (powerUps : List PowerUp) : GameState × Spaceship × List Obstacle × List PowerUp × Bool :=
  let r := resolveObstacles ship obstacles
  if r.2 then ({ gs with isGameOver := true }, r.1, obstacles, powerUps, true)
  else
    let q := resolvePowerUps gs r.1 powerUps
    (q.1, q.2.1, obstacles, q.2.2, false)

/-- `activateBoost` (lines 1268-1270): the viewer boost action adds 5000 ms. -/
def activateBoost (ship : Spaceship) : Spaceship :=
  { ship with boostTime := ship.boostTime + 5000 }

/-! ## Injected (viewer-action) spawners (lines 1146-1266) -/

/-- JavaScript `value || fallback` on an optional numeric field: an absent
field or a falsy value (0) yields the fallback. -/
def jsOr (v : Option ℚ) (fallback : ℚ) : ℚ :=
  match v with
  | none => fallback
  | some q => if q = 0 then fallback else q

/-- The `data` payload of a viewer `powerup` action (fields read by
`spawnPowerUp`). -/
structure PowerUpData where
  x : Option ℚ
  y : Option ℚ
  type : Option PowerUpType
  points : Option ℚ
  duration : Option ℚ
  rarity : Option Rarity
  effectStrength : Option ℚ
deriving DecidableEq

/-- `spawnPowerUp(data)` (lines 1146-1173); `rndY` stands for the
`Math.random()` draw of the default y position. -/
def spawnPowerUp (gs : GameState) (rndY : ℚ) (data : PowerUpData) : PowerUp where
  x := jsOr data.x gs.width
  y := jsOr data.y (rndY * (gs.height - 30))
  width := 25
  height := 25
  type := data.type.getD .bonus
  points := jsOr data.points 25
  id := "viewer_powerup"
  duration := jsOr data.duration 15000
  rarity := data.rarity.getD .common
  effectStrength := jsOr data.effectStrength 1
  isPulsing := false
  pulseSpeed := 0
  isRotating := false
  rotationSpeed := 0
  isTracking := false
  trackingRange := 0

/-- The `data` payload of a viewer `obstacle` action (fields read by
`spawnObstacle`). -/
structure ObstacleData where
  spawnSide : Option SpawnSide
  x : Option ℚ
  y : Option ℚ
  speed : Option ℚ
  width : Option ℚ
  height : Option ℚ
  type : Option ObstacleType
  health : Option ℚ
  damage : Option ℚ
  isExplosive : Option Bool
  explosionRadius : Option ℚ
  isInvulnerable : Option Bool
  invulnerabilityTime : Option ℚ
deriving DecidableEq

/-- The `Math.random()` draws consumed by `spawnObstacle`. -/
structure SpawnRnd where
  sideRnd : ℚ
  posRnd : ℚ
  vel1 : ℚ
  vel2 : ℚ
  rotRnd : ℚ
deriving DecidableEq

/-- `['left','right','top','bottom'][Math.floor(r * 4)]`. -/
def sideFromRnd (r : ℚ) : SpawnSide :=
  if ⌊r * 4⌋ = 0 then .left
  else if ⌊r * 4⌋ = 1 then .right
  else if ⌊r * 4⌋ = 2 then .top
  else .bottom

/-- `spawnObstacle(data)` (lines 1175-1266): missing or falsy fields fall
back to randomized defaults via `||`. -/
def spawnObstacle (gs : GameState) (rnd : SpawnRnd) (data : ObstacleData) : Obstacle :=
  let spawnSide := data.spawnSide.getD (sideFromRnd rnd.sideRnd)
  let speed := jsOr data.speed 4
  let width := jsOr data.width 40
  let height := jsOr data.height 40
  let pos :=
    match spawnSide with
    | .left =>
      (-width, jsOr data.y (rnd.posRnd * (gs.height - height)),
        speed * (0.8 + rnd.vel1 * 0.4), (rnd.vel2 - 0.5) * speed * 0.3)
    | .right =>
      (gs.width, jsOr data.y (rnd.posRnd * (gs.height - height)),
        -speed * (0.8 + rnd.vel1 * 0.4), (rnd.vel2 - 0.5) * speed * 0.3)
    | .top =>
      (jsOr data.x (rnd.posRnd * (gs.width - width)), -height,
        (rnd.vel2 - 0.5) * speed * 0.3, speed * (0.8 + rnd.vel1 * 0.4))
    | .bottom =>
      (jsOr data.x (rnd.posRnd * (gs.width - width)), gs.height,
        (rnd.vel2 - 0.5) * speed * 0.3, -speed * (0.8 + rnd.vel1 * 0.4))
    | _ =>
      (jsOr data.x gs.width, jsOr data.y (rnd.posRnd * (gs.height - height)),
        -speed, 0)
  { x := pos.1
    y := pos.2.1
    width := width
    height := height
    type := data.type.getD .asteroid
    speed := speed
    id := "viewer_obstacle"
    rotation := 0
    rotationSpeed := (rnd.rotRnd - 0.5) * 0.1
    health := jsOr data.health 1
    damage := jsOr data.damage 1
    isTracking := false
    trackingSpeed := 0
    isBouncing := false
    bounceCount := 0
    maxBounces := 0
    isExplosive := data.isExplosive.getD false
    explosionRadius := jsOr data.explosionRadius 0
    isInvulnerable := data.isInvulnerable.getD false
    invulnerabilityTime := jsOr data.invulnerabilityTime 0
    velocityX := pos.2.2.1
    velocityY := pos.2.2.2
    spawnSide := spawnSide
    diagonalAngle := 0
    gravity := 0
    bounceEnergy := 0
    aiType := .passive
    aiState := .idle
    aiTimer := 0
    aiCooldown := 0
    patrolPoints := []
    currentPatrolIndex := 0
    swarmCenter := (0, 0)
    avoidanceRadius := 0
    maxSpeed := speed
    acceleration := 0
    friction := 1 }

/-! ## Event sequences over the craft (damage applications and collections) -/

/-- One externally observable event acting on the craft: a tick of
craft-obstacle collision resolution against one obstacle, or the collection
of one power-up. -/
inductive GameOp where
  | hitObstacle (ob : Obstacle)
  | collect (p : PowerUp)

/-- Combined craft and session state threaded through an event sequence. -/
structure SimState where
  gs : GameState
  ship : Spaceship

/-- Apply one event.  The game loop is guarded by
`if (gameStateRef.current.isGameOver) return`, so once the game is over
nothing further happens. -/
def applyOp (s : SimState) (op : GameOp) : SimState :=
  if s.gs.isGameOver then s
  else
    match op with
    | .hitObstacle ob =>
      let r := resolveObstacles s.ship [ob]
      { gs := if r.2 then { s.gs with isGameOver := true } else s.gs, ship := r.1 }
    | .collect p =>
      let c := collectPowerUp s.gs s.ship p
      { gs := c.1, ship := c.2 }

/-- Run an event sequence. -/
def runOps (s : SimState) (ops : List GameOp) : SimState := ops.foldl applyOp s

/-- Session start: initial game state (stored high score 0) and craft. -/
def initialSimState : SimState := { gs := initialGameState 0, ship := initialSpaceship }

/-! ## Concrete fixtures and predicates used by the verification -/

/-- Game state with score 250 and everything else at its session start
value, used to witness the difficulty recomputation. -/
def gameState250 : GameState := { initialGameState 0 with score := 250 }

/-- An obstacle overlapping the craft at its initial position, carrying the
given damage; the remaining fields are as the spawners produce them. -/
def collidingObstacle (damage : ℚ) : Obstacle where
  x := 400
  y := 500
  width := 40
  height := 30
  type := .asteroid
  speed := 4
  id := "obstacle_test"
  rotation := 0
  rotationSpeed := 0
  health := 1
  damage := damage
  isTracking := false
  trackingSpeed := 0
  isBouncing := false
  bounceCount := 0
  maxBounces := 0
  isExplosive := false
  explosionRadius := 0
  isInvulnerable := false
  invulnerabilityTime := 0
  velocityX := 0
  velocityY := 0
  spawnSide := .left
  diagonalAngle := 0
  gravity := 0
  bounceEnergy := 0
  aiType := .passive
  aiState := .idle
  aiTimer := 0
  aiCooldown := 0
  patrolPoints := []
  currentPatrolIndex := 0
  swarmCenter := (0, 0)
  avoidanceRadius := 0
  maxSpeed := 4
  acceleration := 0
  friction := 1

/-- Damage restriction for an event: obstacle damage is nonnegative (the
random spawner only produces damages 1 and 2; injected obstacles may carry
arbitrary values). -/
def damageNonneg : GameOp → Prop
  | .hitObstacle ob => 0 ≤ ob.damage
  | .collect _ => True

/-- The state invariant maintained by the event loop: max health is the
initial 100, health never exceeds it, and while the game is not over the
health is still positive. -/
def healthInv (s : SimState) : Prop :=
  s.ship.maxHealth = 100 ∧ s.ship.health ≤ 100 ∧
    (s.gs.isGameOver = false → 0 < s.ship.health)

/-- Craft with an active 5000 ms shield, as in the spec scenario. -/
def shieldedCraft : Spaceship := { initialSpaceship with shield := true, shieldTime := 5000 }

/-- Craft with an active shield that still has 3000 ms to run. -/
def shieldedCraft3000 : Spaceship := { initialSpaceship with shield := true, shieldTime := 3000 }

/-- A shield power-up as the random spawner produces it. -/
def shieldPowerUp : PowerUp where
  x := 400
  y := 500
  width := 25
  height := 25
  type := .shield
  points := 5
  id := "powerup_test"
  duration := 10000
  rarity := .common
  effectStrength := 1
  isPulsing := false
  pulseSpeed := 0.05
  isRotating := false
  rotationSpeed := 0.02
  isTracking := false
  trackingRange := 0

/-- An obstacle at the origin moving right at stored velocity 10. -/
def movingObstacle : Obstacle := { collidingObstacle 1 with x := 0, y := 0, velocityX := 10 }

/-- The initial craft moved to x = 100 with 5000 ms of boost charge. -/
def boostedCraft : Spaceship := { initialSpaceship with x := 100, boostTime := 5000 }

/-- The initial craft moved to x = 100 with no boost charge. -/
def unboostedCraft : Spaceship := { initialSpaceship with x := 100 }

/-- Power-up injection data with x = 0 and y = 0. -/
def zeroPowerUpData : PowerUpData :=
  ⟨some 0, some 0, none, none, none, none, none⟩

/-- Obstacle injection data with speed, damage and health all 0. -/
def zeroObstacleData : ObstacleData :=
  ⟨some .left, none, none, some 0, none, none, none, some 0, some 0, none, none, none, none⟩

/-- Fixed random draws for the witness spawn. -/
def fixedSpawnRnd : SpawnRnd := ⟨1 / 2, 1 / 2, 1 / 2, 1 / 2, 1 / 2⟩

/-! ## Difficulty controller lemmas -/

lemma pointsForLevel_eq (l : ℕ) : pointsForLevel l = 50 * ((l - 1) * l) := by
  unfold pointsForLevel
  have h : 100 * (l - 1) * l = 2 * (50 * ((l - 1) * l)) := by ring
  rw [h, Nat.mul_div_cancel_left _ (by norm_num)]

lemma pointsForLevel_mono {a b : ℕ} (h : a ≤ b) : pointsForLevel a ≤ pointsForLevel b := by
  rw [pointsForLevel_eq, pointsForLevel_eq]
  exact Nat.mul_le_mul_left _ (Nat.mul_le_mul (by omega) h)

/-- Loop invariant proof for the level-search loop of `updateDifficulty`:
starting at level `l ≥ 1` with `pointsForNextLevel` equal to the cumulative
threshold of level `l + 1`, with the threshold of `l` already at or below the
score and enough fuel left, the loop returns the largest level whose
threshold is at or below the score. -/
lemma findLevelAux_solves (score : ℕ) :
    ∀ fuel l pnl, 1 ≤ l → pnl = 50 * (l * (l + 1)) →
      50 * ((l - 1) * l) ≤ score → score + 1 ≤ pnl + 200 * fuel →
      1 ≤ findLevelAux score fuel l pnl ∧
      50 * ((findLevelAux score fuel l pnl - 1) * findLevelAux score fuel l pnl) ≤ score ∧
      score < 50 * (findLevelAux score fuel l pnl * (findLevelAux score fuel l pnl + 1)) := by
  intro fuel
  induction fuel with
  | zero =>
    intro l pnl hl hpnl hlow hfuel
    simp only [findLevelAux]
    subst hpnl
    exact ⟨hl, hlow, by linarith⟩
  | succ fuel ih =>
    intro l pnl hl hpnl hlow hfuel
    obtain ⟨m, rfl⟩ : ∃ m, l = m + 1 := ⟨l - 1, by omega⟩
    by_cases h : pnl ≤ score
    · have hstep : findLevelAux score (fuel + 1) (m + 1) pnl =
        findLevelAux score fuel (m + 2) (pnl + 100 * (m + 2)) := by
        simp only [findLevelAux, if_pos h]
      rw [hstep]
      apply ih
      · omega
      · rw [hpnl]; ring
      · have he : (m + 2) - 1 = m + 1 := by omega
        rw [he]
        calc 50 * ((m + 1) * (m + 2)) = pnl := by rw [hpnl]
        _ ≤ score := h
      · have h200 : 200 ≤ 100 * (m + 2) := by omega
        linarith
    · have hstep : findLevelAux score (fuel + 1) (m + 1) pnl = m + 1 := by
        simp only [findLevelAux, if_neg h]
      rw [hstep]
      refine ⟨by omega, by simpa using hlow, ?_⟩
      have hs : score < pnl := by omega
      rw [hpnl] at hs
      have he : 50 * ((m + 1) * (m + 1 + 1)) = 50 * ((m + 1) * (m + 2)) := by ring
      rw [he] at hs
      simpa using hs

/-- The loop of `updateDifficulty` computes a level at least 1 whose
cumulative threshold is at or below the score, with the next threshold
strictly above the score. -/
lemma findLevel_spec (score : ℕ) :
    1 ≤ findLevel score ∧ pointsForLevel (findLevel score) ≤ score ∧
      score < pointsForLevel (findLevel score + 1) := by
  have h := findLevelAux_solves score (score + 1) 1 100 (le_refl 1) (by norm_num)
    (by simp) (by omega)
  refine ⟨h.1, ?_, ?_⟩
  · rw [pointsForLevel_eq]; exact h.2.1
  · rw [pointsForLevel_eq]; simpa using h.2.2

/-- Maximality: the computed level is the largest whose threshold fits. -/
lemma findLevel_max (score l : ℕ) (h : pointsForLevel l ≤ score) : l ≤ findLevel score := by
  by_contra hc
  push_neg at hc
  have h2 : pointsForLevel (findLevel score + 1) ≤ score :=
    le_trans (pointsForLevel_mono (by omega)) h
  exact absurd h2 (Nat.not_le.mpr (findLevel_spec score).2.2)

/-- The guarded `pointsForCurrentLevel` of the source equals the closed form
for every level the loop can produce. -/
lemma smoothDifficulty_eq (score : ℕ) :
    smoothDifficulty score = (findLevel score : ℚ) +
      ((score : ℚ) - (pointsForLevel (findLevel score) : ℚ)) /
        (100 * (findLevel score : ℚ)) := by
  unfold smoothDifficulty
  by_cases h : findLevel score = 1
  · simp only [h, if_pos rfl]
    norm_num [pointsForLevel]
  · simp only [if_neg h]

lemma one_le_smoothDifficulty (score : ℕ) : 1 ≤ smoothDifficulty score := by
  rw [smoothDifficulty_eq]
  have h1 : 1 ≤ findLevel score := (findLevel_spec score).1
  have h1q : (1 : ℚ) ≤ (findLevel score : ℚ) := by exact_mod_cast h1
  have h2 : pointsForLevel (findLevel score) ≤ score := (findLevel_spec score).2.1
  have h2q : (pointsForLevel (findLevel score) : ℚ) ≤ (score : ℚ) := by exact_mod_cast h2
  have hd : 0 ≤ ((score : ℚ) - (pointsForLevel (findLevel score) : ℚ)) /
      (100 * (findLevel score : ℚ)) :=
    div_nonneg (by linarith) (by positivity)
  linarith

lemma one_le_roundedDifficulty (score : ℕ) : 1 ≤ roundedDifficulty score := by
  unfold roundedDifficulty jsRound
  have h := one_le_smoothDifficulty score
  have hfl : (100 : ℤ) ≤ ⌊smoothDifficulty score * 100 + 1 / 2⌋ := by
    apply Int.le_floor.mpr
    push_cast
    linarith
  have hflq : (100 : ℚ) ≤ (⌊smoothDifficulty score * 100 + 1 / 2⌋ : ℚ) := by exact_mod_cast hfl
  rw [le_div_iff₀ (by norm_num : (0 : ℚ) < 100)]
  linarith

lemma roundedDifficulty_250 : roundedDifficulty 250 = 11 / 4 := by
  have h : findLevel 250 = 2 := by decide
  have hp : pointsForLevel 2 = 100 := by decide
  have hs : smoothDifficulty 250 = 11 / 4 := by
    rw [smoothDifficulty_eq, h, hp]; norm_num
  rw [roundedDifficulty, hs]
  norm_num [jsRound]

lemma roundedDifficulty_0 : roundedDifficulty 0 = 1 := by
  have h : findLevel 0 = 1 := by decide
  have hp : pointsForLevel 1 = 0 := by decide
  have hs : smoothDifficulty 0 = 1 := by
    rw [smoothDifficulty_eq, h, hp]; norm_num
  rw [roundedDifficulty, hs]
  norm_num [jsRound]

lemma updateDifficulty_no_change (gs : GameState)
    (h : |gs.difficultyLevel - roundedDifficulty gs.score| < 1 / 10) :
    updateDifficulty gs = gs := by
  unfold updateDifficulty
  rw [if_pos h]

lemma updateDifficulty_level (gs : GameState)
    (h : ¬ |gs.difficultyLevel - roundedDifficulty gs.score| < 1 / 10) :
    (updateDifficulty gs).difficultyLevel = min (roundedDifficulty gs.score) 20 := by
  unfold updateDifficulty
  rw [if_neg h]
  dsimp only
  split_ifs <;> rfl

/-- C1: the difficulty recomputation finds the largest integer level whose
triangular cumulative threshold `100 * L * (L - 1) / 2` fits below the score,
forms the continuous level `L + (score - T(L)) / (100 * L)`, rounds it to two
decimals, clamps it to `[1, 20]`, and applies the update only when it moved
by at least 0.1 from the stored `difficultyLevel`; for score 250 the
continuous level is 2.75. -/
theorem difficulty_recompute_correct (gs : GameState) :
    (1 ≤ findLevel gs.score ∧ pointsForLevel (findLevel gs.score) ≤ gs.score ∧
      ∀ l : ℕ, pointsForLevel l ≤ gs.score → l ≤ findLevel gs.score) ∧
    smoothDifficulty gs.score = (findLevel gs.score : ℚ) +
      ((gs.score : ℚ) - (pointsForLevel (findLevel gs.score) : ℚ)) /
        (100 * (findLevel gs.score : ℚ)) ∧
    roundedDifficulty gs.score = (jsRound (smoothDifficulty gs.score * 100) : ℚ) / 100 ∧
    (|gs.difficultyLevel - roundedDifficulty gs.score| < 1 / 10 → updateDifficulty gs = gs) ∧
    (1 / 10 ≤ |gs.difficultyLevel - roundedDifficulty gs.score| →
      (updateDifficulty gs).difficultyLevel = min (roundedDifficulty gs.score) 20 ∧
      1 ≤ (updateDifficulty gs).difficultyLevel ∧
      (updateDifficulty gs).difficultyLevel ≤ 20) ∧
    smoothDifficulty 250 = 11 / 4 := by
  refine ⟨⟨(findLevel_spec gs.score).1, (findLevel_spec gs.score).2.1,
      fun l hl => findLevel_max gs.score l hl⟩,
    smoothDifficulty_eq gs.score, rfl, updateDifficulty_no_change gs, fun h => ?_, ?_⟩
  · have hn : ¬ |gs.difficultyLevel - roundedDifficulty gs.score| < 1 / 10 := not_lt.mpr h
    refine ⟨updateDifficulty_level gs hn, ?_, ?_⟩
    · rw [updateDifficulty_level gs hn]
      exact le_min (one_le_roundedDifficulty gs.score) (by norm_num)
    · rw [updateDifficulty_level gs hn]
      exact min_le_right _ _
  · have h : findLevel 250 = 2 := by decide
    have hp : pointsForLevel 2 = 100 := by decide
    rw [smoothDifficulty_eq, h, hp]; norm_num


/-- Witness for C1 at concrete inputs: with score 250 and stored difficulty 1
the recomputation applies and stores 2.75; with score 0 it leaves the state
untouched. -/
theorem difficulty_recompute_witness :
    (updateDifficulty gameState250).difficultyLevel = 11 / 4 ∧
    updateDifficulty (initialGameState 0) = initialGameState 0 := by
  constructor
  · have happ := (difficulty_recompute_correct gameState250).2.2.2.2.1
    have hsc : gameState250.score = 250 := rfl
    have hdl : gameState250.difficultyLevel = 1 := rfl
    have hyp : (1 : ℚ) / 10 ≤ |gameState250.difficultyLevel - roundedDifficulty gameState250.score| := by
      rw [hsc, hdl, roundedDifficulty_250, abs_sub_comm,
        abs_of_nonneg (by norm_num : (0 : ℚ) ≤ 11 / 4 - 1)]
      norm_num
    have hres := (happ hyp).1
    rw [hsc, roundedDifficulty_250] at hres
    rw [hres]
    norm_num
  · apply (difficulty_recompute_correct (initialGameState 0)).2.2.2.1
    have hsc : (initialGameState 0).score = 0 := rfl
    have hdl : (initialGameState 0).difficultyLevel = 1 := rfl
    rw [hsc, hdl, roundedDifficulty_0]
    norm_num

/-- C8: the derived tunables of `updateDifficulty` follow the stated
formulas; over `[1, 20]` the game speed and power-up interval are monotone
non-decreasing, the obstacle interval is monotone non-increasing, and each
stays within its stated clamp. -/
theorem derived_tunables_monotone_clamped (l1 l2 : ℚ)
    (h1 : 1 ≤ l1) (h12 : l1 ≤ l2) (h2 : l2 ≤ 20) :
    newGameSpeed l1 = min (2 + 1.2 * l1) 30 ∧
    newObstacleSpawnRate l1 = max (1400 - 60 * l1) 300 ∧
    newPowerUpSpawnRate l1 = max (5000 + 200 * l1) 3000 ∧
    newGameSpeed l1 ≤ newGameSpeed l2 ∧
    newObstacleSpawnRate l2 ≤ newObstacleSpawnRate l1 ∧
    newPowerUpSpawnRate l1 ≤ newPowerUpSpawnRate l2 ∧
    newGameSpeed l1 ≤ 30 ∧
    300 ≤ newObstacleSpawnRate l1 ∧
    3000 ≤ newPowerUpSpawnRate l1 := by
  refine ⟨by rw [newGameSpeed, mul_comm], by rw [newObstacleSpawnRate, mul_comm],
    by rw [newPowerUpSpawnRate, mul_comm], ?_, ?_, ?_, min_le_right _ _,
    le_max_right _ _, le_max_right _ _⟩
  · exact min_le_min (by linarith) le_rfl
  · exact max_le_max (by linarith) le_rfl
  · exact max_le_max (by linarith) le_rfl

/-- Witness for C8 at levels 2 and 3. -/
theorem derived_tunables_witness :
    newGameSpeed 2 ≤ newGameSpeed 3 ∧
    newObstacleSpawnRate 3 ≤ newObstacleSpawnRate 2 ∧
    newPowerUpSpawnRate 2 ≤ newPowerUpSpawnRate 3 ∧
    newGameSpeed 2 ≤ 30 ∧ 300 ≤ newObstacleSpawnRate 2 ∧ 3000 ≤ newPowerUpSpawnRate 2 := by
  have h := derived_tunables_monotone_clamped 2 3 (by norm_num) (by norm_num) (by norm_num)
  exact ⟨h.2.2.2.1, h.2.2.2.2.1, h.2.2.2.2.2.1, h.2.2.2.2.2.2.1,
    h.2.2.2.2.2.2.2.1, h.2.2.2.2.2.2.2.2⟩

/-! ## Collision resolution lemmas -/


/-- While invisible or shielded every obstacle is skipped: the craft and the
game-over flag come back untouched. -/
lemma resolveObstacles_skip (ship : Spaceship) (obs : List Obstacle)
    (h : ship.isInvisible = true ∨ ship.shield = true) :
    resolveObstacles ship obs = (ship, false) := by
  induction obs with
  | nil => rfl
  | cons ob rest ih =>
    rcases h with h | h
    · simp [resolveObstacles, h, ih]
    · cases hinv : ship.isInvisible
      · simp [resolveObstacles, hinv, h, ih]
      · simp [resolveObstacles, hinv, ih]

/-- Unblocked single-obstacle resolution: raise the screen shake to at least
5, subtract the damage, and report game over exactly when the new health is
at or below zero. -/
lemma resolveObstacles_single (ship : Spaceship) (ob : Obstacle)
    (h1 : ship.isInvisible = false) (h2 : ship.shield = false)
    (h3 : collidesObstacle ship ob) (h4 : 0 < ship.health) :
    resolveObstacles ship [ob] =
      ({ ship with
          screenShakeIntensity := max ship.screenShakeIntensity 5
          health := ship.health - obstacleDamage ob },
        decide (ship.health - obstacleDamage ob ≤ 0)) := by
  show (if ship.isInvisible then resolveObstacles ship []
    else if ship.shield then resolveObstacles ship []
    else if collidesObstacle ship ob then
      if 0 < ship.health then
        if ship.health - obstacleDamage ob ≤ 0 then
          ({ ship with
              screenShakeIntensity := max ship.screenShakeIntensity 5
              health := ship.health - obstacleDamage ob }, true)
        else resolveObstacles { ship with
          screenShakeIntensity := max ship.screenShakeIntensity 5
          health := ship.health - obstacleDamage ob } []
      else ({ ship with screenShakeIntensity := max ship.screenShakeIntensity 5 }, true)
    else resolveObstacles ship []) = _
  rw [h1, h2]
  simp only [Bool.false_eq_true, if_false]
  rw [if_pos h3, if_pos h4]
  by_cases h5 : ship.health - obstacleDamage ob ≤ 0
  · rw [if_pos h5]
    simp [h5]
  · rw [if_neg h5]
    simp [resolveObstacles, h5]

/-- Health accounting along the obstacle loop: with nonnegative damages and
positive starting health, health never increases, max health is untouched,
and if no game over was reported the health is still positive. -/
lemma resolveObstacles_health (obs : List Obstacle) : ∀ ship : Spaceship,
    (∀ ob ∈ obs, 0 ≤ ob.damage) → 0 < ship.health →
    (resolveObstacles ship obs).1.health ≤ ship.health ∧
    (resolveObstacles ship obs).1.maxHealth = ship.maxHealth ∧
    ((resolveObstacles ship obs).2 = false → 0 < (resolveObstacles ship obs).1.health) := by
  induction obs with
  | nil => intro ship _ hpos; exact ⟨le_refl _, rfl, fun _ => hpos⟩
  | cons ob rest ih =>
    intro ship hd hpos
    have hdob : 0 ≤ ob.damage := hd ob (List.mem_cons_self ob rest)
    have hdrest : ∀ o ∈ rest, 0 ≤ o.damage := fun o ho => hd o (List.mem_cons_of_mem ob ho)
    have hdmg : 0 ≤ obstacleDamage ob := by
      unfold obstacleDamage
      split_ifs <;> [norm_num; exact hdob]
    cases hinv : ship.isInvisible
    · cases hsh : ship.shield
      · by_cases hc : collidesObstacle ship ob
        · have hstep : resolveObstacles ship (ob :: rest) =
            (let ship1 := { ship with screenShakeIntensity := max ship.screenShakeIntensity 5 }
             let ship2 := { ship1 with health := ship1.health - obstacleDamage ob }
             if ship2.health ≤ 0 then (ship2, true) else resolveObstacles ship2 rest) := by
            simp [resolveObstacles, hinv, hsh, hc, hpos]
          rw [hstep]
          dsimp only
          by_cases h5 : ship.health - obstacleDamage ob ≤ 0
          · rw [if_pos h5]
            exact ⟨by dsimp; linarith, rfl, by simp⟩
          · rw [if_neg h5]
            push_neg at h5
            have hr := ih { ship with
              screenShakeIntensity := max ship.screenShakeIntensity 5
              health := ship.health - obstacleDamage ob } hdrest h5
            refine ⟨le_trans hr.1 (by dsimp; linarith), hr.2.1, hr.2.2⟩
        · have hstep : resolveObstacles ship (ob :: rest) = resolveObstacles ship rest := by
            simp [resolveObstacles, hinv, hsh, hc]
          rw [hstep]
          exact ih ship hdrest hpos
      · have hstep : resolveObstacles ship (ob :: rest) = resolveObstacles ship rest := by
          simp [resolveObstacles, hinv, hsh]
        rw [hstep]
        exact ih ship hdrest hpos
    · have hstep : resolveObstacles ship (ob :: rest) = resolveObstacles ship rest := by
        simp [resolveObstacles, hinv]
      rw [hstep]
      exact ih ship hdrest hpos

/-! ## C2: health bounds along event sequences -/



/-- Collecting a power-up never changes the craft health or max health (no
power-up heals in the source). -/
lemma collectPowerUp_craft_unchanged (gs : GameState) (ship : Spaceship) (p : PowerUp) :
    (collectPowerUp gs ship p).2.health = ship.health ∧
    (collectPowerUp gs ship p).2.maxHealth = ship.maxHealth := by
  unfold collectPowerUp
  rcases htp : p.type <;> simp [htp]

lemma applyOp_preserves (s : SimState) (op : GameOp)
    (hI : healthInv s) (hd : damageNonneg op) : healthInv (applyOp s op) := by
  unfold applyOp
  cases hover : s.gs.isGameOver
  · simp only [Bool.false_eq_true, if_false]
    cases op with
    | hitObstacle ob =>
      have hr := resolveObstacles_health [ob] s.ship
        (by intro o ho; simp at ho; subst ho; exact hd) (hI.2.2 hover)
      dsimp only
      constructor
      · rw [hr.2.1]; exact hI.1
      constructor
      · exact le_trans hr.1 hI.2.1
      · intro hnot
        cases hro : (resolveObstacles s.ship [ob]).2
        · exact hr.2.2 hro
        · rw [hro] at hnot
          simp at hnot
    | collect p =>
      dsimp only
      have hh := collectPowerUp_craft_unchanged s.gs s.ship p
      exact ⟨by rw [hh.2]; exact hI.1, by rw [hh.1]; exact hI.2.1,
        fun _ => by rw [hh.1]; exact hI.2.2 hover⟩
  · simp only [if_true]
    exact hI

lemma runOps_preserves (ops : List GameOp) : ∀ s : SimState, healthInv s →
    (∀ op ∈ ops, damageNonneg op) → healthInv (runOps s ops) := by
  induction ops with
  | nil => intro s hI _; exact hI
  | cons op rest ih =>
    intro s hI hd
    have h1 : healthInv (applyOp s op) :=
      applyOp_preserves s op hI (hd op (List.mem_cons_self op rest))
    exact ih (applyOp s op) h1 (fun o ho => hd o (List.mem_cons_of_mem op ho))

/-- C2 counterexample to the claim as stated: two damage applications from
the initial craft state (an injected obstacle with damage 99, then one with
damage 2 — the random spawner itself produces damage 2 meteors) drive the
craft health to -1, which is negative. -/
theorem health_goes_negative_counterexample :
    (runOps initialSimState [GameOp.hitObstacle (collidingObstacle 99),
      GameOp.hitObstacle (collidingObstacle 2)]).ship.health < 0 := by
  have hc : collidesObstacle initialSpaceship (collidingObstacle 99) := by
    norm_num [collidesObstacle, initialSpaceship, collidingObstacle]
  have h1 : resolveObstacles initialSpaceship [collidingObstacle 99] =
      ({ initialSpaceship with
          screenShakeIntensity := max initialSpaceship.screenShakeIntensity 5
          health := initialSpaceship.health - obstacleDamage (collidingObstacle 99) },
        decide (initialSpaceship.health - obstacleDamage (collidingObstacle 99) ≤ 0)) :=
    resolveObstacles_single _ _ rfl rfl hc (by norm_num [initialSpaceship])
  have hdmg99 : obstacleDamage (collidingObstacle 99) = 99 := by
    norm_num [obstacleDamage, collidingObstacle]
  have hdmg2 : obstacleDamage (collidingObstacle 2) = 2 := by
    norm_num [obstacleDamage, collidingObstacle]
  have hstep1 : runOps initialSimState [GameOp.hitObstacle (collidingObstacle 99),
      GameOp.hitObstacle (collidingObstacle 2)] =
      applyOp (applyOp initialSimState (GameOp.hitObstacle (collidingObstacle 99)))
        (GameOp.hitObstacle (collidingObstacle 2)) := rfl
  rw [hstep1]
  have hs1 : applyOp initialSimState (GameOp.hitObstacle (collidingObstacle 99)) =
      { gs := initialGameState 0,
        ship := { initialSpaceship with
          screenShakeIntensity := max initialSpaceship.screenShakeIntensity 5
          health := 1 } } := by
    unfold applyOp
    rw [show (initialSimState.gs.isGameOver) = false from rfl]
    simp only [Bool.false_eq_true, if_false]
    rw [show initialSimState.ship = initialSpaceship from rfl, h1, hdmg99]
    norm_num [initialSpaceship, initialSimState]
  rw [hs1]
  set craft1 : Spaceship := { initialSpaceship with
    screenShakeIntensity := max initialSpaceship.screenShakeIntensity 5
    health := 1 } with hcraft1
  have hc2 : collidesObstacle craft1 (collidingObstacle 2) := by
    norm_num [collidesObstacle, hcraft1, initialSpaceship, collidingObstacle]
  have h2 : resolveObstacles craft1 [collidingObstacle 2] =
      ({ craft1 with
          screenShakeIntensity := max craft1.screenShakeIntensity 5
          health := craft1.health - obstacleDamage (collidingObstacle 2) },
        decide (craft1.health - obstacleDamage (collidingObstacle 2) ≤ 0)) :=
    resolveObstacles_single _ _ rfl rfl hc2 (by norm_num [hcraft1, initialSpaceship])
  unfold applyOp
  rw [show ((initialGameState 0).isGameOver) = false from rfl]
  simp only [Bool.false_eq_true, if_false]
  rw [h2, hdmg2]
  norm_num [hcraft1, initialSpaceship]

/-- C2 amended: along any event sequence whose obstacle damages are
nonnegative, the craft health never exceeds max health, and it stays
positive as long as the game is not over; on the terminal hit (game over
set) health may be negative, as the counterexample shows. -/
theorem health_bounds_amended (ops : List GameOp) (hd : ∀ op ∈ ops, damageNonneg op) :
    (runOps initialSimState ops).ship.health ≤ (runOps initialSimState ops).ship.maxHealth ∧
    ((runOps initialSimState ops).gs.isGameOver = false →
      0 < (runOps initialSimState ops).ship.health) := by
  have hinit : healthInv initialSimState :=
    ⟨rfl, by norm_num [initialSimState, initialSpaceship],
      fun _ => by norm_num [initialSimState, initialSpaceship]⟩
  have h := runOps_preserves ops initialSimState hinit hd
  exact ⟨by rw [h.1]; exact h.2.1, h.2.2⟩

/-- Witness for C2 (amended) at a concrete event sequence: one damage-1 hit
and one bonus collection. -/
theorem health_bounds_witness :
    (runOps initialSimState [GameOp.hitObstacle (collidingObstacle 1)]).ship.health ≤
      (runOps initialSimState [GameOp.hitObstacle (collidingObstacle 1)]).ship.maxHealth := by
  refine (health_bounds_amended [GameOp.hitObstacle (collidingObstacle 1)] ?_).1
  intro op hop
  simp at hop
  subst hop
  show (0 : ℚ) ≤ (collidingObstacle 1).damage
  norm_num [collidingObstacle]

/-! ## C3: shield and invisibility immunity -/

/-- C3: if the craft is shielded or invisible when the obstacle loop of
`checkCollisions` runs, health and shield time are unchanged however many
obstacles overlap, no game over is reported, and the shield timer is only
changed by the elapsed-time timer update. -/
theorem shield_invisibility_immunity (ship : Spaceship) (obstacles : List Obstacle)
    (h : ship.isInvisible = true ∨ ship.shield = true) :
    (resolveObstacles ship obstacles).1.health = ship.health ∧
    (resolveObstacles ship obstacles).1.shieldTime = ship.shieldTime ∧
    (resolveObstacles ship obstacles).2 = false ∧
    (∀ deltaTime : ℚ, 0 < ship.shieldTime →
      (updateShieldTimer deltaTime ship).shieldTime = max 0 (ship.shieldTime - deltaTime)) := by
  have hr := resolveObstacles_skip ship obstacles h
  rw [hr]
  refine ⟨rfl, rfl, rfl, ?_⟩
  intro deltaTime hdt
  unfold updateShieldTimer
  rw [if_pos hdt]


/-- Witness for C3: a shielded craft overlapped by a damage-1 obstacle keeps
health 100 and shield time 5000; the timer update after 1000 ms elapsed
leaves 4000. -/
theorem shield_invisibility_immunity_witness :
    (resolveObstacles shieldedCraft [collidingObstacle 1]).1.health = 100 ∧
    (resolveObstacles shieldedCraft [collidingObstacle 1]).1.shieldTime = 5000 ∧
    (updateShieldTimer 1000 shieldedCraft).shieldTime = 4000 := by
  have h := shield_invisibility_immunity shieldedCraft [collidingObstacle 1] (Or.inr rfl)
  refine ⟨h.1, h.2.1, ?_⟩
  have ht := h.2.2.2 1000 (by norm_num [shieldedCraft, initialSpaceship])
  rw [ht]
  norm_num [shieldedCraft, initialSpaceship]

/-! ## C4: obstacles survive collisions and re-apply damage -/

/-- C4: `checkCollisions` never removes an obstacle; an unblocked overlap
subtracts the obstacle damage from health, raises the screen shake to the
fixed minimum 5, reports game over exactly when the new health is at or
below zero, and a second tick of the same overlap subtracts the damage
again. -/
theorem obstacle_not_removed (gs : GameState) (ship : Spaceship)
    (obstacles : List Obstacle) (powerUps : List PowerUp) (ob : Obstacle)
    (h1 : ship.isInvisible = false) (h2 : ship.shield = false)
    (h3 : collidesObstacle ship ob) (h4 : 0 < ship.health) :
    (checkCollisions gs ship obstacles powerUps).2.2.1 = obstacles ∧
    (resolveObstacles ship [ob]).1.health = ship.health - obstacleDamage ob ∧
    (resolveObstacles ship [ob]).1.screenShakeIntensity = max ship.screenShakeIntensity 5 ∧
    ((resolveObstacles ship [ob]).1.health ≤ 0 → (resolveObstacles ship [ob]).2 = true) ∧
    (0 < (resolveObstacles ship [ob]).1.health →
      (resolveObstacles ship [ob]).2 = false ∧
      (resolveObstacles (resolveObstacles ship [ob]).1 [ob]).1.health =
        ship.health - 2 * obstacleDamage ob) := by
  have hs := resolveObstacles_single ship ob h1 h2 h3 h4
  refine ⟨?_, ?_, ?_, ?_, ?_⟩
  · unfold checkCollisions
    dsimp only
    split <;> rfl
  · rw [hs]
  · rw [hs]
  · rw [hs]
    intro hle
    dsimp only at hle ⊢
    simp [hle]
  · rw [hs]
    intro hpos
    dsimp only at hpos ⊢
    constructor
    · simp [not_le.mpr hpos]
    · have hs2 := resolveObstacles_single
        { ship with
          screenShakeIntensity := max ship.screenShakeIntensity 5
          health := ship.health - obstacleDamage ob } ob h1 h2 h3 hpos
      rw [hs2]
      dsimp only
      ring

/-- Witness for C4: the initial craft overlapped by a damage-1 obstacle ends
at health 99 with the obstacle list unchanged, and a second tick of the same
overlap ends at health 98. -/
theorem obstacle_not_removed_witness :
    (checkCollisions (initialGameState 0) initialSpaceship [collidingObstacle 1] []).2.2.1 =
      [collidingObstacle 1] ∧
    (resolveObstacles initialSpaceship [collidingObstacle 1]).1.health = 99 ∧
    (resolveObstacles (resolveObstacles initialSpaceship [collidingObstacle 1]).1
      [collidingObstacle 1]).1.health = 98 := by
  have hc : collidesObstacle initialSpaceship (collidingObstacle 1) := by
    norm_num [collidesObstacle, initialSpaceship, collidingObstacle]
  have h := obstacle_not_removed (initialGameState 0) initialSpaceship [collidingObstacle 1] []
    (collidingObstacle 1) rfl rfl hc (by norm_num [initialSpaceship])
  have hdmg : obstacleDamage (collidingObstacle 1) = 1 := by
    norm_num [obstacleDamage, collidingObstacle]
  have hh99 : (resolveObstacles initialSpaceship [collidingObstacle 1]).1.health = 99 := by
    rw [h.2.1, hdmg]
    norm_num [initialSpaceship]
  refine ⟨h.1, hh99, ?_⟩
  have hpos : 0 < (resolveObstacles initialSpaceship [collidingObstacle 1]).1.health := by
    rw [hh99]; norm_num
  rw [(h.2.2.2.2 hpos).2, hdmg]
  norm_num [initialSpaceship]

/-! ## C5: effect timer semantics on collection -/



/-- C5 counterexample: collecting a shield power-up while 3000 ms of shield
remain sets the timer to 5000 ms — it does not extend it to 8000 ms as the
claimed additive semantics would. -/
theorem shield_collect_sets_counterexample :
    (collectPowerUp (initialGameState 0) shieldedCraft3000 shieldPowerUp).2.shieldTime = 5000 ∧
    (5000 : ℚ) ≠ shieldedCraft3000.shieldTime + 5000 := by
  constructor
  · simp [collectPowerUp, shieldPowerUp]
  · norm_num [shieldedCraft3000, initialSpaceship]

/-- C5 amended: only boost extends (adds 5000 ms to the remaining time, both
on collection and through the viewer boost action); shield, invisibility,
multishot, magnet and time-freeze all set their timers to the fixed
durations 5000, 4000, 6000, 8000 and 5000 ms (magnet also sets range 80). -/
theorem effect_timer_semantics (gs : GameState) (ship : Spaceship) (p : PowerUp) :
    (collectPowerUp gs ship { p with type := .boost }).2.boostTime = ship.boostTime + 5000 ∧
    (activateBoost ship).boostTime = ship.boostTime + 5000 ∧
    (collectPowerUp gs ship { p with type := .shield }).2.shieldTime = 5000 ∧
    (collectPowerUp gs ship { p with type := .invisibility }).2.invisibilityTime = 4000 ∧
    (collectPowerUp gs ship { p with type := .multishot }).2.multishotTime = 6000 ∧
    (collectPowerUp gs ship { p with type := .magnet }).2.magnetTime = 8000 ∧
    (collectPowerUp gs ship { p with type := .magnet }).2.magnetRange = 80 ∧
    (collectPowerUp gs ship { p with type := .timefreeze }).2.timeFreezeTime = 5000 := by
  refine ⟨?_, rfl, ?_, ?_, ?_, ?_, ?_, ?_⟩ <;> simp [collectPowerUp, activateBoost]

/-! ## C6: obstacle advance rates -/


/-- C6 counterexample: under time freeze the obstacle with stored velocity
10 advances by 3 (30% of the stored velocity), not by 2.1 (30% of the
already-damped 70% rate) as claimed. -/
theorem timefreeze_rate_counterexample :
    (moveObstacle true movingObstacle).x = 3 ∧
    ((3 : ℚ) ≠ movingObstacle.x + movingObstacle.velocityX * (3 / 10 * (7 / 10))) := by
  constructor
  · norm_num [moveObstacle, movingObstacle, collidingObstacle]
  · norm_num [movingObstacle, collidingObstacle]

/-- C6 amended: each tick a non-frozen obstacle advances by 70% of its
stored velocity on each axis, and a frozen obstacle by 30% of its stored
velocity (a flat factor, not 30% of the damped rate). -/
theorem obstacle_advance_rates (ob : Obstacle) :
    (moveObstacle false ob).x = ob.x + ob.velocityX * (7 / 10) ∧
    (moveObstacle false ob).y = ob.y + ob.velocityY * (7 / 10) ∧
    (moveObstacle true ob).x = ob.x + ob.velocityX * (3 / 10) ∧
    (moveObstacle true ob).y = ob.y + ob.velocityY * (3 / 10) := by
  refine ⟨?_, ?_, ?_, ?_⟩ <;> norm_num [moveObstacle]

/-! ## C7: boost and craft displacement -/



/-- C7: holding right with active boost (Space held, boost time positive)
moves the craft by the same 8 units as without boost — the boost handler
doubles the `velocity` field, but the position update never reads it, so the
per-axis displacement is not doubled. -/
theorem boost_does_not_double_displacement :
    (updateShipMovement (initialGameState 0) ["ArrowRight", "Space"] boostedCraft).x =
      boostedCraft.x + moveSpeed ∧
    (updateShipMovement (initialGameState 0) ["ArrowRight"] unboostedCraft).x =
      unboostedCraft.x + moveSpeed ∧
    (updateBoost ["ArrowRight", "Space"] 16 boostedCraft).velocity = moveSpeed * 2 ∧
    (updateBoost ["ArrowRight", "Space"] 16 boostedCraft).boost = true ∧
    (updateShipMovement (initialGameState 0) ["ArrowRight", "Space"] boostedCraft).x ≠
      boostedCraft.x + moveSpeed * 2 := by
  refine ⟨?_, ?_, ?_, ?_, ?_⟩ <;>
    norm_num [updateShipMovement, updateBoost, computeMoveX, computeMoveY, moveSpeed,
      boostedCraft, unboostedCraft, initialGameState, initialSpaceship, List.contains]

/-! ## C9: the new-high-score flag -/

/-- C9: the flag is computed against the already-updated high score, so
after every `collectPowerUp` call it is false. -/
theorem newHighScore_always_false (gs : GameState) (ship : Spaceship) (p : PowerUp) :
    (collectPowerUp gs ship p).1.newHighScore = false := by
  unfold collectPowerUp
  dsimp only
  split_ifs <;> simp_all

/-! ## C10: falsy injected fields fall back to defaults -/

/-- C10: in the viewer-action spawners a supplied numeric field whose value
is 0 is treated as missing (JavaScript `||`): a power-up injected with
x = 0 lands at the playfield width (the right edge), a y of 0 lands at the
randomized default, and an obstacle injected with speed, damage or health 0
gets the defaults 4, 1 and 1. -/
theorem falsy_injected_fields_defaulted (gs : GameState) (rndY : ℚ) (rnd : SpawnRnd)
    (pd : PowerUpData) (od : ObstacleData)
    (hx : pd.x = some 0) (hy : pd.y = some 0) (hs : od.speed = some 0)
    (hd : od.damage = some 0) (hh : od.health = some 0) :
    (spawnPowerUp gs rndY pd).x = gs.width ∧
    (spawnPowerUp gs rndY pd).y = rndY * (gs.height - 30) ∧
    (spawnObstacle gs rnd od).speed = 4 ∧
    (spawnObstacle gs rnd od).damage = 1 ∧
    (spawnObstacle gs rnd od).health = 1 := by
  refine ⟨?_, ?_, ?_, ?_, ?_⟩ <;>
    simp [spawnPowerUp, spawnObstacle, jsOr, hx, hy, hs, hd, hh]




/-- Witness for C10: injecting a power-up with x = 0 into the 800-wide
initial playfield places it at x = 800, and an obstacle injected with
speed = damage = health = 0 gets speed 4, damage 1, health 1. -/
theorem falsy_injected_fields_witness :
    (spawnPowerUp (initialGameState 0) (1 / 2) zeroPowerUpData).x = 800 ∧
    (spawnObstacle (initialGameState 0) fixedSpawnRnd zeroObstacleData).speed = 4 ∧
    (spawnObstacle (initialGameState 0) fixedSpawnRnd zeroObstacleData).damage = 1 ∧
    (spawnObstacle (initialGameState 0) fixedSpawnRnd zeroObstacleData).health = 1 := by
  have h := falsy_injected_fields_defaulted (initialGameState 0) (1 / 2) fixedSpawnRnd
    zeroPowerUpData zeroObstacleData rfl rfl rfl rfl rfl
  exact ⟨h.1, h.2.2.1, h.2.2.2.1, h.2.2.2.2⟩

end StarRun
